import Mathlib

/-!
# Verification development for the probability-exchange aggregation layer

Shallow embedding of `api_clients.py` (the multi-venue aggregation core:
rate limiter, shared request pipeline, venue clients, aggregator), with
theorems settling the specification claims about it.

Modelling conventions:
* Python `float` values are modelled as `ℚ` (the module's arithmetic is
  exact ratios, token counts and volumes; no rounding-sensitive code).
* Python `dict.get(key)` / `dict.get(key, default)` on venue JSON is
  modelled by `Option` fields on raw-record structures plus `Option.getD`.
  JSON `null` and an absent key are conflated (both become `none`), as the
  module itself only distinguishes them in `dict.get` defaults for string
  interpolation.
* Python `datetime` values are modelled symbolically by the constructor
  that produced them (`fromtimestamp` seconds, `fromisoformat` string, or
  `utcnow`); no claim compares datetimes produced by different
  constructors.
* Fallible venue-side effects (the HTTP fetch behind `_make_request`) are
  passed in as explicit `Except`/response-stream arguments.
-/

namespace ProbEx

/-- Python `datetime` values, modelled symbolically by their construction.
`fromIso` failure (`ValueError` on a malformed ISO string, which the code
turns into `None`) is not modelled: no claim depends on ISO parsing; a
nonempty string is treated as parseable. -/
inductive PyDateTime where
  | fromTimestamp (seconds : ℚ)
  | fromIso (s : String)
  | utcnow
deriving DecidableEq

/-- `APIConfig` dataclass: per-venue connection parameters.
`retry_attempts` is an `int` in the source; it is only used as
`range(retry_attempts)`, which is empty for non-positive values, so `Nat`
is faithful. -/
structure APIConfig where
  api_key : String := ""
  secret_key : Option String := none
  base_url : String := ""
  rate_limit : ℚ := 60
  timeout : ℚ := 30
  retry_attempts : Nat := 3
  retry_delay : ℚ := 1
deriving DecidableEq

/-- `MarketData` dataclass: the unified market record.  `id` is typed
`str` in the dataclass but every adapter populates it from
`dict.get(...)`, which may yield `None`, so it is `Option String` here. -/
structure MarketData where
  id : Option String := none
  platform : String
  question : String := ""
  description : Option String := none
  category : Option String := none
  market_type : String := "binary"
  outcomes : Option (List String) := none
  current_price : Option ℚ := none
  probability : Option ℚ := none
  volume_24h : ℚ := 0
  total_volume : ℚ := 0
  liquidity : ℚ := 0
  open_time : Option PyDateTime := none
  close_time : Option PyDateTime := none
  resolution_date : Option PyDateTime := none
  status : String := "open"
  url : Option String := none
  last_updated : Option PyDateTime := none
deriving DecidableEq

/-- `OrderRequest` dataclass. -/
structure OrderRequest where
  market_id : String
  outcome : String
  order_type : String := "buy"
  quantity : Int := 1
  price : Option ℚ := none
  time_in_force : String := "GTC"
deriving DecidableEq

/-- `OrderResponse` dataclass. -/
structure OrderResponse where
  success : Bool
  order_id : Option String := none
  filled_quantity : Int := 0
  average_price : Option ℚ := none
  total_cost : Option ℚ := none
  fees : Option ℚ := none
  error_message : Option String := none
  timestamp : Option PyDateTime := none
deriving DecidableEq

/-! ## RateLimiter (token bucket) -/

/-- `RateLimiter` mutable state: token count and last-refill wall-clock
time (`time.time()` values are the `ℚ` arguments threaded through). -/
structure RateLimiter where
  requests_per_minute : ℚ
  burst_limit : ℚ
  tokens : ℚ
  last_refill : ℚ
deriving DecidableEq

/-- `RateLimiter.__init__`: `tokens = float(burst_limit)`,
`last_refill = time.time()` (passed as `now`). -/
def RateLimiter.init (requests_per_minute : ℚ) (burst_limit : ℚ) (now : ℚ) :
    RateLimiter :=
  { requests_per_minute := requests_per_minute
    burst_limit := burst_limit
    tokens := burst_limit
    last_refill := now }

/-- `RateLimiter.acquire` body (the critical section under the lock).
`now` is the `time.time()` sample taken inside the call.  Returns the
updated limiter and the boolean result. -/
def RateLimiter.acquire (rl : RateLimiter) (now : ℚ) : RateLimiter × Bool :=
  let time_passed := now - rl.last_refill
  let tokens_to_add := time_passed * (rl.requests_per_minute / 60)
  let rl' :=
    if 0 < tokens_to_add then
      { rl with tokens := min rl.burst_limit (rl.tokens + tokens_to_add)
                last_refill := now }
    else rl
  if 1 ≤ rl'.tokens then ({ rl' with tokens := rl'.tokens - 1 }, true)
  else (rl', false)

/-- A sequence of `acquire()` calls at the given wall-clock sample times
(arbitrary time, forwards or backwards, may elapse between calls). -/
def RateLimiter.run (rl : RateLimiter) (times : List ℚ) : RateLimiter :=
  times.foldl (fun s t => (s.acquire t).1) rl

/-! ## Timestamp parsing (`BaseAPIClient`) -/

/-- Python `str(x)` for an optional string (`None` prints as `"None"`),
as used by f-string interpolation of `dict.get` results. -/
def pyStr (o : Option String) : String :=
  match o with
  | none => "None"
  | some s => s

/-- `BaseAPIClient._parse_datetime`: `None`/empty string gives `None`; a
trailing `Z` is rewritten to `+00:00` before `datetime.fromisoformat`. -/
def parse_datetime (date_str : Option String) : Option PyDateTime :=
  match date_str with
  | none => none
  | some s =>
    if s = "" then none
    else
      let s' := if s.endsWith "Z" then s.dropRight 1 ++ "+00:00" else s
      some (.fromIso s')

/-- Range of `datetime.fromtimestamp` (years 1..9999, as epoch seconds);
out-of-range values raise, which the code catches and turns into `None`. -/
def timestampInRange (t : ℚ) : Prop :=
  -62135596800 ≤ t ∧ t < 253402300800

instance (t : ℚ) : Decidable (timestampInRange t) :=
  inferInstanceAs (Decidable (_ ∧ _))

/-- `BaseAPIClient._parse_timestamp`: `datetime.fromtimestamp(timestamp)`
directly — the numeric value is always interpreted as Unix seconds. -/
def parse_timestamp (timestamp : Option ℚ) : Option PyDateTime :=
  match timestamp with
  | none => none
  | some t =>
    if timestampInRange t then some (.fromTimestamp t) else none

/-! ## Shared request pipeline (`BaseAPIClient._make_request`) -/

/-- Parsed JSON body of a successful response, modelled as a flat dict. -/
abbrev Json := List (String × String)

/-- What one HTTP roundtrip in `_make_request` can observe:
a 429 with an optional `Retry-After` header, an HTTP error status that
makes `raise_for_status` throw (`aiohttp.ClientResponseError`), a
network/client error raised before a status is available, or a 2xx
response with a JSON body. -/
inductive HttpResponse where
  | rateLimited (retryAfter : Option Nat)
  | httpError
  | netError
  | ok (body : Json)
deriving DecidableEq

instance {ε α : Type} [DecidableEq ε] [DecidableEq α] :
    DecidableEq (Except ε α) := fun a b =>
  match a, b with
  | .error x, .error y =>
    if h : x = y then .isTrue (by rw [h]) else .isFalse (by simp [h])
  | .error _, .ok _ => .isFalse (by simp)
  | .ok _, .error _ => .isFalse (by simp)
  | .ok x, .ok y =>
    if h : x = y then .isTrue (by rw [h]) else .isFalse (by simp [h])

/-- Result of `_make_request`: the returned JSON or a propagated
exception, together with the durations passed to `asyncio.sleep`, in
order. -/
structure RequestOutcome where
  result : Except String Json
  sleeps : List ℚ
deriving DecidableEq

/-- The `for attempt in range(retry_attempts)` loop of
`BaseAPIClient._make_request`.  `responses i` is what the `i`-th HTTP
roundtrip issued by this call observes; `remaining` is the number of loop
iterations left (so the current `attempt` index is
`cfg.retry_attempts - remaining`).  Falling off the end of the loop —
which happens exactly when every iteration hits the 429 `continue` —
reaches the trailing `return {}`. -/
def make_request_go (cfg : APIConfig) (responses : Nat → HttpResponse) :
    Nat → Nat → RequestOutcome
  | _, 0 => { result := .ok [], sleeps := [] }
  | i, remaining + 1 =>
    let attempt := cfg.retry_attempts - (remaining + 1)
    match responses i with
    | .rateLimited retryAfter =>
      let out := make_request_go cfg responses (i + 1) remaining
      { out with sleeps := ((retryAfter.getD 60 : Nat) : ℚ) :: out.sleeps }
    | .ok body => { result := .ok body, sleeps := [] }
    | .httpError =>
      if remaining = 0 then { result := .error "ClientResponseError", sleeps := [] }
      else
        let out := make_request_go cfg responses (i + 1) remaining
        { out with sleeps := cfg.retry_delay * 2 ^ attempt :: out.sleeps }
    | .netError =>
      if remaining = 0 then { result := .error "ClientError", sleeps := [] }
      else
        let out := make_request_go cfg responses (i + 1) remaining
        { out with sleeps := cfg.retry_delay * 2 ^ attempt :: out.sleeps }

/-- `BaseAPIClient._make_request` (after the rate-limiter wait and header
merge, which do not affect the retry/return behaviour). -/
def make_request (cfg : APIConfig) (responses : Nat → HttpResponse) :
    RequestOutcome :=
  make_request_go cfg responses 0 cfg.retry_attempts

/-! ## Question tokenization and Jaccard similarity -/

/-- Python `str.split()` with no separator, over a char list: split on
whitespace runs, dropping empty tokens.  `acc` holds the chars of the
current in-progress token, reversed. -/
def pySplitWsAux : List Char → List Char → List String
  | [], acc => if acc.isEmpty then [] else [String.mk acc.reverse]
  | c :: cs, acc =>
    if c.isWhitespace then
      if acc.isEmpty then pySplitWsAux cs []
      else String.mk acc.reverse :: pySplitWsAux cs []
    else pySplitWsAux cs (c :: acc)

/-- Python `s.lower().split()` as a word set:
`set(question.lower().split())`. -/
def wordSet (s : String) : Finset String :=
  (pySplitWsAux (s.toList.map Char.toLower) []).toFinset

/-- `PredictionMarketAggregator._questions_similar`: word-set Jaccard
index, `0.0` when either word set is empty.  (The `threshold` parameter
of the source function is unused in its body and omitted.) -/
def questions_similar (question1 question2 : String) : ℚ :=
  let words1 := wordSet question1
  let words2 := wordSet question2
  if words1 = ∅ ∨ words2 = ∅ then 0
  else ((words1 ∩ words2).card : ℚ) / ((words1 ∪ words2).card : ℚ)

/-! ## Polymarket adapter (`PolymarketRealClient`) -/

/-- Raw Polymarket market JSON: the fields `get_markets` reads via
`dict.get`. -/
structure PolyRaw where
  id : Option String := none
  question : Option String := none
  description : Option String := none
  category : Option String := none
  type : Option String := none
  outcomes : Option (List String) := none
  price : Option ℚ := none
  probability : Option ℚ := none
  volume24Hours : Option ℚ := none
  volume : Option ℚ := none
  liquidity : Option ℚ := none
  startDate : Option String := none
  endDate : Option String := none
  resolutionDate : Option String := none
  isActive : Option Bool := none
  slug : Option String := none
deriving DecidableEq

/-- The per-record field mapping inside `PolymarketRealClient.get_markets`
(every field access is `dict.get` with a default, so it never raises). -/
def polymarket_transform (m : PolyRaw) : MarketData :=
  { id := m.id
    platform := "polymarket"
    question := m.question.getD ""
    description := m.description
    category := m.category
    market_type := m.type.getD "BINARY"
    outcomes := some (m.outcomes.getD ["Yes", "No"])
    current_price := m.price
    probability := m.probability
    volume_24h := m.volume24Hours.getD 0
    total_volume := m.volume.getD 0
    liquidity := m.liquidity.getD 0
    open_time := parse_datetime m.startDate
    close_time := parse_datetime m.endDate
    resolution_date := parse_datetime m.resolutionDate
    status := if m.isActive.getD false then "open" else "closed"
    url := some ("https://polymarket.com/market/" ++ pyStr (m.slug.or m.id))
    last_updated := some .utcnow }

/-- `PolymarketRealClient.get_markets`: the whole fetch-and-transform is
wrapped in `try/except` returning `[]`, so a venue-side failure yields an
empty list and never raises to the caller.  `fetch` is the outcome of the
underlying `_make_request` (its `markets` field). -/
def polymarket_get_markets (fetch : Except String (List PolyRaw)) :
    List MarketData :=
  match fetch with
  | .error _ => []
  | .ok ms => ms.map polymarket_transform

/-! ## Kalshi adapter (`KalshiRealClient`) -/

/-- Raw Kalshi market JSON: the fields `get_markets` reads. -/
structure KalshiRaw where
  ticker : Option String := none
  title : Option String := none
  subtitle : Option String := none
  category : Option String := none
  last_price : Option ℚ := none
  volume_24h : Option ℚ := none
  total_volume : Option ℚ := none
  open_interest : Option ℚ := none
  open_time : Option ℚ := none
  close_time : Option ℚ := none
  expiration_time : Option ℚ := none
  is_open : Option Bool := none
deriving DecidableEq

/-- The per-record field mapping inside `KalshiRealClient.get_markets`
(all `dict.get` with defaults; `_parse_timestamp` catches its own
errors, so the mapping never raises on a well-typed record). -/
def kalshi_transform (m : KalshiRaw) : MarketData :=
  { id := m.ticker
    platform := "kalshi"
    question := m.title.getD ""
    description := m.subtitle
    category := m.category
    market_type := "binary"
    outcomes := some ["Yes", "No"]
    current_price := m.last_price
    probability := m.last_price
    volume_24h := m.volume_24h.getD 0
    total_volume := m.total_volume.getD 0
    liquidity := m.open_interest.getD 0
    open_time := parse_timestamp m.open_time
    close_time := parse_timestamp m.close_time
    resolution_date := parse_timestamp m.expiration_time
    status := if m.is_open.getD false then "open" else "closed"
    url := some ("https://kalshi.com/trade/" ++ pyStr m.ticker)
    last_updated := some .utcnow }

/-- `KalshiRealClient.get_markets`: `try/except` around the whole
fetch-and-transform, returning `[]` on any failure. -/
def kalshi_get_markets (fetch : Except String (List KalshiRaw)) :
    List MarketData :=
  match fetch with
  | .error _ => []
  | .ok ms => ms.map kalshi_transform

/-! ## Manifold adapter (`ManifoldRealClient`) -/

/-- Raw Manifold market JSON.  `groupSlugs` is a JSON array whose entries
may be `null`; the code indexes `market_data.get('groupSlugs', [None])[0]`,
which raises `IndexError` when the field is present but empty. -/
structure ManifoldRaw where
  id : Option String := none
  question : Option String := none
  description : Option String := none
  groupSlugs : Option (List (Option String)) := none
  outcomeType : Option String := none
  probability : Option ℚ := none
  volume24Hours : Option ℚ := none
  volume : Option ℚ := none
  totalLiquidity : Option ℚ := none
  createdTime : Option String := none
  closeTime : Option String := none
  isResolved : Option Bool := none
  creatorUsername : Option String := none
  slug : Option String := none
deriving DecidableEq

/-- `ManifoldRealClient._get_outcomes` (its `outcome_type` argument is
`market_data.get('outcomeType')`, hence optional). -/
def get_outcomes (outcome_type : Option String) : List String :=
  if outcome_type = some "BINARY" then ["Yes", "No"]
  else if outcome_type = some "FREE_RESPONSE" then ["Free Response"]
  else if outcome_type = some "MULTIPLE_CHOICE" then ["Multiple Choice"]
  else ["Yes", "No"]

/-- The per-record field mapping inside `ManifoldRealClient.get_markets`.
It can raise: `market_data.get('groupSlugs', [None])[0]` is an
`IndexError` when `groupSlugs == []`; the `or "Uncategorized"` then
replaces a falsy (`None` or `""`) first entry. -/
def manifold_transform (m : ManifoldRaw) : Except String MarketData :=
  match (m.groupSlugs.getD [none]).head? with
  | none => .error "IndexError: list index out of range"
  | some first =>
    let category :=
      match first with
      | some s => if s = "" then "Uncategorized" else s
      | none => "Uncategorized"
    .ok
      { id := m.id
        platform := "manifold"
        question := m.question.getD ""
        description := m.description
        category := some category
        market_type := m.outcomeType.getD "BINARY"
        outcomes := some (get_outcomes m.outcomeType)
        current_price := m.probability
        probability := m.probability
        volume_24h := m.volume24Hours.getD 0
        total_volume := m.volume.getD 0
        liquidity := m.totalLiquidity.getD 0
        open_time := parse_datetime m.createdTime
        close_time := parse_datetime m.closeTime
        status := if m.isResolved.getD false then "resolved" else "open"
        url := some ("https://manifold.markets/" ++ m.creatorUsername.getD ""
          ++ "/" ++ m.slug.getD "")
        last_updated := some .utcnow }

/-- `ManifoldRealClient.get_markets`: the transform loop sits inside one
`try/except`, so the first record whose mapping raises aborts the whole
batch and the `except` returns `[]`. -/
def manifold_get_markets (fetch : Except String (List ManifoldRaw)) :
    List MarketData :=
  match fetch with
  | .error _ => []
  | .ok ms =>
    match ms.mapM manifold_transform with
    | .error _ => []
    | .ok out => out

/-! ## Mock client (`MockMarketClient`) -/

/-- The fixed five-record sample catalog of `MockMarketClient.get_markets`. -/
def mock_markets (platform : String) : List MarketData :=
  [ { id := some (platform ++ "_btc_100k")
      platform := platform
      question := "Will Bitcoin reach $100,000 by end of 2025?"
      description := some "Binary market on BTC price target"
      category := some "crypto"
      current_price := some (67/100)
      probability := some (67/100)
      volume_24h := 125000
      total_volume := 2500000
      liquidity := 500000
      status := "open"
      url := some ("https://" ++ platform ++ ".com/markets/btc-100k")
      last_updated := some .utcnow },
    { id := some (platform ++ "_eth_5k")
      platform := platform
      question := "Will Ethereum reach $5,000 by Q2 2025?"
      description := some "ETH price prediction market"
      category := some "crypto"
      current_price := some (45/100)
      probability := some (45/100)
      volume_24h := 85000
      total_volume := 1200000
      liquidity := 300000
      status := "open"
      url := some ("https://" ++ platform ++ ".com/markets/eth-5k")
      last_updated := some .utcnow },
    { id := some (platform ++ "_election")
      platform := platform
      question := "2024 Presidential Election Winner"
      description := some "Who will win the 2024 US Presidential Election?"
      category := some "politics"
      current_price := some (52/100)
      probability := some (52/100)
      volume_24h := 450000
      total_volume := 8500000
      liquidity := 1200000
      status := "open"
      url := some ("https://" ++ platform ++ ".com/markets/election-2024")
      last_updated := some .utcnow },
    { id := some (platform ++ "_ai_agi")
      platform := platform
      question := "Will AGI be achieved by 2027?"
      description := some "General artificial intelligence development timeline"
      category := some "technology"
      current_price := some (23/100)
      probability := some (23/100)
      volume_24h := 95000
      total_volume := 1500000
      liquidity := 400000
      status := "open"
      url := some ("https://" ++ platform ++ ".com/markets/agi-2027")
      last_updated := some .utcnow },
    { id := some (platform ++ "_climate")
      platform := platform
      question := "Will global temperature rise exceed 1.5°C by 2030?"
      description := some "Climate change prediction market"
      category := some "climate"
      current_price := some (78/100)
      probability := some (78/100)
      volume_24h := 65000
      total_volume := 950000
      liquidity := 250000
      status := "open"
      url := some ("https://" ++ platform ++ ".com/markets/climate-1-5c")
      last_updated := some .utcnow } ]

/-- `MockMarketClient.get_markets(category, limit)` (default `limit=50`).
The filter is guarded by Python truthiness (`if category:`), so passing
the empty string skips filtering entirely. -/
def mock_get_markets (platform : String) (category : Option String := none)
    (limit : Nat := 50) : List MarketData :=
  let ms := mock_markets platform
  let ms :=
    match category with
    | some c => if c = "" then ms else ms.filter fun m => m.category = some c
    | none => ms
  ms.take limit

/-! ## Order placement -/

/-- Raw Polymarket `/orders` response fields read by `place_order`. -/
structure PolyOrderRaw where
  order_id : Option String := none
  filled_quantity : Option Int := none
  average_price : Option ℚ := none
  total_cost : Option ℚ := none
  fees : Option ℚ := none
deriving DecidableEq

/-- `PolymarketRealClient.place_order`: on a successful request the
response fields are copied via `dict.get` (so `order_id` mirrors the
venue payload, possibly `None`); any exception becomes
`success=False` with `error_message=str(e)`. -/
def polymarket_place_order (order : OrderRequest)
    (resp : Except String PolyOrderRaw) : OrderResponse :=
  match resp with
  | .ok r =>
    { success := true
      order_id := r.order_id
      filled_quantity := r.filled_quantity.getD 0
      average_price := r.average_price
      total_cost := r.total_cost
      fees := some (r.fees.getD 0)
      error_message := none
      timestamp := some .utcnow }
  | .error e =>
    { success := false
      error_message := some e
      timestamp := some .utcnow }

/-- Raw Kalshi `/orders` response fields read by `place_order`. -/
structure KalshiOrderRaw where
  id : Option String := none
  filled : Option Int := none
  average_price : Option ℚ := none
  total_cost : Option ℚ := none
  fees : Option ℚ := none
deriving DecidableEq

/-- `KalshiRealClient.place_order`: same shape as Polymarket with the
venue's field names (`id`, `filled`). -/
def kalshi_place_order (order : OrderRequest)
    (resp : Except String KalshiOrderRaw) : OrderResponse :=
  match resp with
  | .ok r =>
    { success := true
      order_id := r.id
      filled_quantity := r.filled.getD 0
      average_price := r.average_price
      total_cost := r.total_cost
      fees := some (r.fees.getD 0)
      error_message := none
      timestamp := some .utcnow }
  | .error e =>
    { success := false
      error_message := some e
      timestamp := some .utcnow }

/-- Python `order.price or 0.5`: falsy (`None` or `0.0`) becomes `0.5`. -/
def price_or_half (price : Option ℚ) : ℚ :=
  match price with
  | some p => if p = 0 then 1/2 else p
  | none => 1/2

/-- `MockMarketClient.place_order`: always succeeds with a generated
order id; `order_counter` stands for the `int(time.time())` suffix. -/
def mock_place_order (order : OrderRequest) (order_counter : Int) :
    OrderResponse :=
  { success := true
    order_id := some ("mock_order_" ++ toString order_counter)
    filled_quantity := order.quantity
    average_price := some (price_or_half order.price)
    total_cost := some (price_or_half order.price * order.quantity)
    fees := some ((1/100) * price_or_half order.price * order.quantity)
    error_message := none
    timestamp := some .utcnow }

/-! ## Aggregator: client registry (`initialize_clients`) -/

/-- A registered client, tagged by kind. -/
inductive Client where
  | newsClient (cfg : APIConfig)
  | polymarketReal (cfg : APIConfig)
  | kalshiReal (cfg : APIConfig)
  | manifoldReal (cfg : APIConfig)
  | mock (platform : String)
deriving DecidableEq

/-- The per-platform body of the `initialize_clients` loop.
`construct_fails` models the `except` branch around real-client
construction: when construction raises, the registry falls back to
`MockMarketClient(platform)`.  Python truthiness `if config.api_key:`
treats the empty string as no credential.  For `platform == "news"` with
no key, nothing is registered (`continue`). -/
def initialize_client (platform : String) (config : APIConfig)
    (construct_fails : Bool) : Option Client :=
  if platform = "news" then
    if config.api_key ≠ "" then some (.newsClient config) else none
  else if config.api_key ≠ "" then
    if construct_fails then some (.mock platform)
    else if platform = "polymarket" then some (.polymarketReal config)
    else if platform = "kalshi" then some (.kalshiReal config)
    else if platform = "manifold" then some (.manifoldReal config)
    else some (.mock platform)
  else some (.mock platform)

/-- `PredictionMarketAggregator.initialize_clients` over the configured
platform map (dicts iterate in insertion order, hence a list of pairs). -/
def initialize_clients (api_configs : List (String × APIConfig))
    (construct_fails : String → Bool) : List (String × Client) :=
  api_configs.filterMap fun pc =>
    (initialize_client pc.1 pc.2 (construct_fails pc.1)).map fun c => (pc.1, c)

/-! ## Aggregator: `get_all_markets` -/

/-- A registered client of the aggregator together with the venue-side
outcome its pending `get_markets` fetch would observe (for real clients
the category/limit arguments are request parameters already reflected in
that outcome; the mock client computes its answer from them). -/
inductive VenueFetch where
  | polymarket (fetch : Except String (List PolyRaw))
  | kalshi (fetch : Except String (List KalshiRaw))
  | manifold (fetch : Except String (List ManifoldRaw))
  | mock (platform : String)
  | news
deriving DecidableEq

/-- Dispatch `client.get_markets(category, limit)`.  All branches are
total: every real client catches venue-side failure and returns `[]`
(never raises to the aggregator).  `NewsAPIClient.get_markets` returns
`[]` in the source. -/
def client_get_markets (c : VenueFetch) (category : Option String)
    (limit : Nat) : List MarketData :=
  match c with
  | .polymarket fetch => polymarket_get_markets fetch
  | .kalshi fetch => kalshi_get_markets fetch
  | .manifold fetch => manifold_get_markets fetch
  | .mock platform => mock_get_markets platform category limit
  | .news => []

/-- The `isinstance` guard of `get_all_markets`/`compare_market`: only
market clients (not the news client) are fanned out. -/
def is_market_client : VenueFetch → Bool
  | .news => false
  | _ => true

/-- `market.platform = platform` re-stamping in the aggregator merge. -/
def restamp (platform : String) (m : MarketData) : MarketData :=
  { m with platform := platform }

/-- One step of Python's stable sort, specialised to the
`key=lambda x: x.volume_24h, reverse=True` comparator: insert `x` before
the first element whose volume is `≤` its own (so among equal volumes the
earlier element stays first). -/
def insertVolDesc (x : MarketData) : List MarketData → List MarketData
  | [] => [x]
  | y :: l =>
    if y.volume_24h ≤ x.volume_24h then x :: y :: l else y :: insertVolDesc x l

/-- `all_markets.sort(key=lambda x: x.volume_24h, reverse=True)`:
Python's sort is stable, and a stable sort under a fixed comparator is
unique, so stable insertion sort computes the same list. -/
def sortVolDesc : List MarketData → List MarketData
  | [] => []
  | x :: l => insertVolDesc x (sortVolDesc l)

/-- The concatenation step of `get_all_markets`: per-venue results (in
registry order, as `asyncio.gather` preserves task order), re-stamped
with the registry platform name.  The `isinstance` check on gather results
never sees an exception because every `get_markets` is total. -/
def all_markets_unsorted (clients : List (String × VenueFetch))
    (category : Option String) (limit_per_platform : Nat) : List MarketData :=
  ((clients.filter fun pc => is_market_client pc.2).map fun pc =>
    (client_get_markets pc.2 category limit_per_platform).map (restamp pc.1)).flatten

/-- `PredictionMarketAggregator.get_all_markets` (default
`limit_per_platform=50`). -/
def get_all_markets (clients : List (String × VenueFetch))
    (category : Option String := none) (limit_per_platform : Nat := 50) :
    List MarketData :=
  sortVolDesc (all_markets_unsorted clients category limit_per_platform)

/-! ## Aggregator: `compare_market` -/

/-- The loop body of `compare_market`'s best-match scan: keep the
current market exactly when its similarity strictly exceeds the running
maximum. -/
def best_scan_step (question : String) (acc : Option MarketData × ℚ)
    (market : MarketData) : Option MarketData × ℚ :=
  let similarity := questions_similar question market.question
  if acc.2 < similarity then (some market, similarity) else acc

/-- The best-match scan of `compare_market` for one venue: fold over the
fetched markets keeping the first market whose similarity strictly
exceeds the running maximum (initially `None, 0.0`). -/
def best_match (question : String) (markets : List MarketData) :
    Option MarketData × ℚ :=
  markets.foldl (best_scan_step question) (none, 0)

/-- The per-venue result of `compare_market`: the best match is kept only
when one exists and its score meets the `0.7` threshold. -/
def compare_market_venue (question : String) (markets : List MarketData) :
    Option MarketData :=
  let bm := best_match question markets
  match bm.1 with
  | some m => if 7/10 ≤ bm.2 then some m else none
  | none => none

/-- `PredictionMarketAggregator.compare_market`: each market client is
asked for up to 100 markets (`limit=100`) and scanned independently.
(The exception branch on the gather result is unreachable here because
every `get_markets` is total.) -/
def compare_market (question : String)
    (clients : List (String × VenueFetch)) :
    List (String × Option MarketData) :=
  (clients.filter fun pc => is_market_client pc.2).map fun pc =>
    (pc.1, compare_market_venue question (client_get_markets pc.2 none 100))

/-- The sort comparator of `get_all_markets` as a relation: `a` may
precede `b` when `b.volume_24h ≤ a.volume_24h` (volume-descending). -/
def volGE (a b : MarketData) : Prop :=
  b.volume_24h ≤ a.volume_24h

/-- The highest similarity score `compare_market` can see for a venue:
the running maximum of the scan, starting from `0.0`. -/
def max_similarity (question : String) (markets : List MarketData) : ℚ :=
  (markets.map fun m => questions_similar question m.question).foldl max 0

/-! ## Concrete sample inputs used by witnesses and counterexamples -/

/-- A well-formed Manifold record (its field mapping succeeds). -/
def manifoldGood : ManifoldRaw :=
  { id := some "m1"
    question := some "Will it rain tomorrow?"
    groupSlugs := some [some "weather"]
    probability := some (3/10)
    volume24Hours := some 10 }

/-- A Manifold record whose field mapping raises: `groupSlugs` present
but empty, so `market_data.get('groupSlugs', [None])[0]` is an
`IndexError`. -/
def manifoldBad : ManifoldRaw :=
  { id := some "m2"
    question := some "Malformed record"
    groupSlugs := some [] }

/-- A market whose question shares no word with the empty query. -/
def mktA : MarketData :=
  { platform := "polymarket", question := "Will it happen?" }

/-- A market whose question exactly matches the query `"btc up"`. -/
def mktB : MarketData :=
  { platform := "kalshi", question := "btc up", volume_24h := 5 }

/-! ## Sorting lemmas for `sortVolDesc` -/

theorem perm_insertVolDesc (x : MarketData) (l : List MarketData) :
    List.Perm (insertVolDesc x l) (x :: l) := by
  induction l with
  | nil => rfl
  | cons y ys ih =>
    rw [insertVolDesc]
    split
    · rfl
    · exact (ih.cons y).trans (List.Perm.swap x y ys)

theorem perm_sortVolDesc (l : List MarketData) :
    List.Perm (sortVolDesc l) l := by
  induction l with
  | nil => rfl
  | cons x xs ih =>
    rw [sortVolDesc]
    exact (perm_insertVolDesc x (sortVolDesc xs)).trans (ih.cons x)

theorem chain'_insertVolDesc (x : MarketData) (l : List MarketData)
    (h : List.Chain' volGE l) : List.Chain' volGE (insertVolDesc x l) := by
  induction l with
  | nil => simp [insertVolDesc]
  | cons y ys ih =>
    rw [insertVolDesc]
    split
    · rename_i hyx
      exact List.Chain'.cons hyx h
    · rename_i hyx
      have hys : List.Chain' volGE ys := h.tail
      refine List.chain'_cons'.mpr ⟨?_, ih hys⟩
      intro z hz
      cases ys with
      | nil =>
        simp [insertVolDesc] at hz
        subst hz
        exact (not_le.mp hyx).le
      | cons w ws =>
        rw [insertVolDesc] at hz
        split at hz
        · simp at hz
          subst hz
          exact (not_le.mp hyx).le
        · simp at hz
          subst hz
          exact (List.chain'_cons.mp h).1

theorem chain'_sortVolDesc (l : List MarketData) :
    List.Chain' volGE (sortVolDesc l) := by
  induction l with
  | nil => simp [sortVolDesc]
  | cons x xs ih => exact chain'_insertVolDesc x (sortVolDesc xs) ih

theorem filter_insertVolDesc (v : ℚ) (x : MarketData) (l : List MarketData) :
    (insertVolDesc x l).filter (fun m => m.volume_24h = v)
      = (x :: l).filter (fun m => m.volume_24h = v) := by
  induction l with
  | nil => rfl
  | cons y ys ih =>
    rw [insertVolDesc]
    split
    · rfl
    · rename_i hyx
      by_cases hx : x.volume_24h = v
      · have hy : ¬ y.volume_24h = v := fun hy => hyx (by rw [hy, hx])
        simp [List.filter_cons, hx, hy, ih]
      · by_cases hy : y.volume_24h = v <;> simp [List.filter_cons, hx, hy, ih]

theorem filter_sortVolDesc (v : ℚ) (l : List MarketData) :
    (sortVolDesc l).filter (fun m => m.volume_24h = v)
      = l.filter (fun m => m.volume_24h = v) := by
  induction l with
  | nil => rfl
  | cons x xs ih =>
    rw [sortVolDesc, filter_insertVolDesc]
    by_cases hx : x.volume_24h = v <;> simp [List.filter_cons, hx, ih]

/-- C3: the sequence returned by `get_all_markets` is sorted by
`volume_24h` non-increasing for every adjacent pair, and the sort is
stable: among records with equal `volume_24h`, the order of the pre-sort
per-venue concatenation is preserved (the filter of the output at any
fixed volume equals the filter of the concatenation). -/
theorem get_all_markets_sorted_stable (clients : List (String × VenueFetch))
    (category : Option String) (limit_per_platform : Nat) :
    List.Chain' volGE (get_all_markets clients category limit_per_platform) ∧
    ∀ v : ℚ,
      (get_all_markets clients category limit_per_platform).filter
          (fun m => m.volume_24h = v)
        = (all_markets_unsorted clients category limit_per_platform).filter
          (fun m => m.volume_24h = v) := by
  exact ⟨chain'_sortVolDesc _, fun v => filter_sortVolDesc v _⟩

/-- C1: `get_all_markets` is a best-effort merge.  A venue whose
venue-side fetch fails contributes an empty list (its client catches the
failure and never raises to the aggregator), and every market of every
other registered venue is still present in the returned sequence
(re-stamped with its registry platform name). -/
theorem get_all_markets_partial_failure (clients : List (String × VenueFetch))
    (category : Option String) (limit_per_platform : Nat) :
    (∀ e : String,
      client_get_markets (.polymarket (.error e)) category limit_per_platform = [] ∧
      client_get_markets (.kalshi (.error e)) category limit_per_platform = [] ∧
      client_get_markets (.manifold (.error e)) category limit_per_platform = []) ∧
    (∀ platform c, (platform, c) ∈ clients →
      ∀ m ∈ client_get_markets c category limit_per_platform,
        restamp platform m ∈ get_all_markets clients category limit_per_platform) := by
  constructor
  · intro e
    exact ⟨rfl, rfl, rfl⟩
  · intro platform c hpc m hm
    rw [get_all_markets, (perm_sortVolDesc _).mem_iff, all_markets_unsorted,
      List.mem_flatten]
    have hmc : is_market_client c = true := by
      cases c with
      | news => simp [client_get_markets] at hm
      | _ => rfl
    refine ⟨(client_get_markets c category limit_per_platform).map (restamp platform),
      ?_, List.mem_map_of_mem _ hm⟩
    exact List.mem_map_of_mem _ (List.mem_filter.mpr ⟨hpc, hmc⟩)

/-- Witness for C1 at a concrete registry: with Polymarket's fetch
failing and a mock Manifold client, the mock client's first sample
market is present in the aggregated output. -/
theorem get_all_markets_partial_failure_witness :
    client_get_markets (.polymarket (.error "outage")) none 50 = [] ∧
    restamp "manifold" ((mock_markets "manifold").get ⟨0, by decide⟩) ∈
      get_all_markets
        [("polymarket", .polymarket (.error "outage")), ("manifold", .mock "manifold")]
        none 50 := by
  refine ⟨((get_all_markets_partial_failure [] none 50).1 "outage").1, ?_⟩
  refine (get_all_markets_partial_failure
    [("polymarket", .polymarket (.error "outage")), ("manifold", .mock "manifold")]
    none 50).2 "manifold" (.mock "manifold") (by decide)
    ((mock_markets "manifold").get ⟨0, by decide⟩) ?_
  show (mock_markets "manifold").get ⟨0, by decide⟩ ∈ mock_markets "manifold"
  exact List.get_mem _ _ _

/-! ## RateLimiter invariant -/

theorem RateLimiter.acquire_preserves (rl : RateLimiter) (now : ℚ)
    (hb : 0 ≤ rl.burst_limit) (h0 : 0 ≤ rl.tokens)
    (h1 : rl.tokens ≤ rl.burst_limit) :
    (rl.acquire now).1.burst_limit = rl.burst_limit ∧
    0 ≤ (rl.acquire now).1.tokens ∧
    (rl.acquire now).1.tokens ≤ rl.burst_limit := by
  simp only [RateLimiter.acquire]
  split_ifs with hadd htok htok
  · refine ⟨rfl, ?_, ?_⟩
    · have : (0:ℚ) ≤ min rl.burst_limit
          (rl.tokens + (now - rl.last_refill) * (rl.requests_per_minute / 60)) :=
        le_min hb (by linarith)
      simp only
      linarith
    · have := min_le_left rl.burst_limit
        (rl.tokens + (now - rl.last_refill) * (rl.requests_per_minute / 60))
      simp only
      linarith
  · refine ⟨rfl, ?_, ?_⟩
    · simp only
      exact le_min hb (by linarith)
    · simp only
      exact min_le_left _ _
  · exact ⟨rfl, by simp only; linarith, by simp only; linarith⟩
  · exact ⟨rfl, h0, h1⟩

/-- C2: for every sequence of `acquire()` calls with arbitrary wall-clock
samples between them, starting from a freshly constructed limiter with a
nonnegative `burst_limit`, the token count always stays within
`[0, burst_limit]`: nonnegative after every (successful or failed)
acquire, and never above `burst_limit` after any refill, including after
arbitrarily long idle periods. -/
theorem rateLimiter_tokens_in_range (requests_per_minute burst_limit t0 : ℚ)
    (hb : 0 ≤ burst_limit) (times : List ℚ) :
    0 ≤ ((RateLimiter.init requests_per_minute burst_limit t0).run times).tokens ∧
    ((RateLimiter.init requests_per_minute burst_limit t0).run times).tokens
      ≤ burst_limit := by
  suffices h : ∀ (rl : RateLimiter), rl.burst_limit = burst_limit →
      0 ≤ rl.tokens → rl.tokens ≤ burst_limit →
      (rl.run times).burst_limit = burst_limit ∧
      0 ≤ (rl.run times).tokens ∧ (rl.run times).tokens ≤ burst_limit by
    have := h (RateLimiter.init requests_per_minute burst_limit t0) rfl hb le_rfl
    exact ⟨this.2.1, this.2.2⟩
  induction times with
  | nil => exact fun rl hbl h0 h1 => ⟨hbl, h0, h1⟩
  | cons t ts ih =>
    intro rl hbl h0 h1
    have step := RateLimiter.acquire_preserves rl t (hbl ▸ hb) h0 (hbl ▸ h1)
    exact ih (rl.acquire t).1 (step.1.trans hbl) step.2.1 (hbl ▸ step.2.2)

/-- Witness for C2 at a concrete run: a limiter with 60 req/min and
burst 10, acquiring at times 0, 0, 1000 (a long idle refill), keeps its
token count in `[0, 10]`. -/
theorem rateLimiter_tokens_in_range_witness :
    0 ≤ ((RateLimiter.init 60 10 0).run [0, 0, 1000]).tokens ∧
    ((RateLimiter.init 60 10 0).run [0, 0, 1000]).tokens ≤ 10 :=
  rateLimiter_tokens_in_range 60 10 0 (by norm_num) [0, 0, 1000]

/-! ## Timestamp parsing (C9) -/

/-- C9 counterexample: for the numeric timestamp `t = 2·10^10 > 10^10`,
`_parse_timestamp` yields the datetime of `t` seconds, not the datetime
of `t/1000` seconds — there is no milliseconds detection in the market
adapters' parser. -/
theorem parse_timestamp_no_ms_counterexample :
    (10 ^ 10 : ℚ) < 2 * 10 ^ 10 ∧
    parse_timestamp (some (2 * 10 ^ 10)) = some (.fromTimestamp (2 * 10 ^ 10)) ∧
    parse_timestamp (some (2 * 10 ^ 10))
      ≠ some (.fromTimestamp ((2 * 10 ^ 10) / 1000)) := by
  refine ⟨by norm_num, ?_, ?_⟩ <;>
    simp only [parse_timestamp, timestampInRange] <;>
    norm_num

/-- C9 amended: every in-range numeric venue timestamp, including values
greater than `10^10`, is interpreted as Unix seconds —
`_parse_timestamp t` is the datetime of `t` seconds, with no
seconds/milliseconds normalization. -/
theorem parse_timestamp_seconds (t : ℚ) (h : timestampInRange t) :
    parse_timestamp (some t) = some (.fromTimestamp t) := by
  simp [parse_timestamp, h]

/-- Witness for the amended C9 at a concrete in-range input. -/
theorem parse_timestamp_seconds_witness :
    parse_timestamp (some (1700000000 : ℚ))
      = some (.fromTimestamp (1700000000 : ℚ)) :=
  parse_timestamp_seconds 1700000000 (by constructor <;> norm_num)

/-! ## Question similarity (C10) -/

/-- C10: the question-similarity function is symmetric, its value always
lies in `[0, 1]`, and it is exactly `0` whenever either question
tokenizes to no words. -/
theorem questions_similar_props (q1 q2 : String) :
    questions_similar q1 q2 = questions_similar q2 q1 ∧
    0 ≤ questions_similar q1 q2 ∧
    questions_similar q1 q2 ≤ 1 ∧
    ((wordSet q1 = ∅ ∨ wordSet q2 = ∅) → questions_similar q1 q2 = 0) := by
  refine ⟨?_, ?_, ?_, ?_⟩
  · rw [questions_similar, questions_similar]
    by_cases h : wordSet q1 = ∅ ∨ wordSet q2 = ∅
    · rw [if_pos h, if_pos h.symm]
    · rw [if_neg h, if_neg fun hc => h hc.symm,
        Finset.inter_comm, Finset.union_comm]
  · rw [questions_similar]
    split_ifs with h
    · exact le_rfl
    · positivity
  · rw [questions_similar]
    split_ifs with h
    · exact zero_le_one
    · push_neg at h
      have hne : (wordSet q1).Nonempty := Finset.nonempty_iff_ne_empty.mpr h.1
      have hpos : 0 < ((wordSet q1 ∪ wordSet q2).card : ℚ) := by
        have hsub : wordSet q1 ⊆ wordSet q1 ∪ wordSet q2 :=
          Finset.subset_union_left
        have := Finset.card_pos.mpr (hne.mono hsub)
        exact_mod_cast this
      rw [div_le_one hpos]
      exact_mod_cast Finset.card_le_card Finset.inter_subset_union
  · intro h
    rw [questions_similar, if_pos h]

/-- Witness for C10 at concrete questions: an empty question gives
similarity `0`. -/
theorem questions_similar_props_witness :
    questions_similar "" "Will it rain?" = 0 :=
  (questions_similar_props "" "Will it rain?").2.2.2 (Or.inl (by decide))

/-! ## Request pipeline and 429 handling (C5) -/

theorem make_request_go_all429 (cfg : APIConfig) (responses : Nat → HttpResponse)
    (hall : ∀ i, ∃ ra, responses i = .rateLimited ra) :
    ∀ (remaining i : Nat),
      (make_request_go cfg responses i remaining).result = .ok [] := by
  intro remaining
  induction remaining with
  | zero => intro i; rfl
  | succ n ih =>
    intro i
    obtain ⟨ra, hra⟩ := hall i
    rw [make_request_go, hra]
    exact ih (i + 1)

/-- C5 counterexample: with a retry budget of a single attempt, one 429
response exhausts the whole budget — the loop falls through to
`return {}` and the successful response the venue would have given on
the next roundtrip is never requested (the claim says the retry of the
same attempt would have returned it). -/
theorem make_request_429_budget_counterexample :
    (make_request { retry_attempts := 1 }
        (fun i => if i = 0 then .rateLimited none else .ok [("k", "v")])).result
      = .ok [] ∧
    (Except.ok ([] : Json) ≠ (.ok [("k", "v")] : Except String Json)) := by
  exact ⟨rfl, by decide⟩

/-- C5 amended: a 429 response makes the client sleep for the
`Retry-After` header value (60 seconds when absent) and then move on to
the NEXT attempt of the `for attempt in range(retry_attempts)` loop,
consuming one slot of the retry budget; a run in which every roundtrip
returns 429 exhausts the loop and returns the empty dict `{}` (not an
exception). -/
theorem make_request_429_spec (cfg : APIConfig) (responses : Nat → HttpResponse)
    (retryAfter : Option Nat) (h : responses 0 = .rateLimited retryAfter)
    (hn : 0 < cfg.retry_attempts) :
    make_request cfg responses =
      { result := (make_request_go cfg responses 1 (cfg.retry_attempts - 1)).result
        sleeps := ((retryAfter.getD 60 : Nat) : ℚ) ::
          (make_request_go cfg responses 1 (cfg.retry_attempts - 1)).sleeps } ∧
    ((∀ i, ∃ ra, responses i = .rateLimited ra) →
      (make_request cfg responses).result = .ok []) := by
  constructor
  · obtain ⟨r, hr⟩ : ∃ r, cfg.retry_attempts = r + 1 :=
      ⟨cfg.retry_attempts - 1, (Nat.succ_pred_eq_of_pos hn).symm⟩
    rw [make_request, hr]
    rw [make_request_go, h]
    have : r + 1 - 1 = r := rfl
    rw [hr, this]
  · intro hall
    rw [make_request]
    exact make_request_go_all429 cfg responses hall cfg.retry_attempts 0

/-- Witness for the amended C5: three attempts, every roundtrip a 429
with `Retry-After: 5` — the result is the empty dict. -/
theorem make_request_429_spec_witness :
    (make_request { retry_attempts := 3 }
        (fun _ => .rateLimited (some 5))).result = .ok [] :=
  (make_request_429_spec { retry_attempts := 3 } (fun _ => .rateLimited (some 5))
    (some 5) rfl (by norm_num)).2 (fun _ => ⟨some 5, rfl⟩)

/-! ## Manifold batch granularity (C6) -/

theorem mapM_manifold_ok (ms : List ManifoldRaw)
    (h : ∀ m ∈ ms, (manifold_transform m).isOk = true) :
    ms.mapM manifold_transform
      = .ok (ms.filterMap fun m => (manifold_transform m).toOption) := by
  induction ms with
  | nil => rfl
  | cons x xs ih =>
    have hx : (manifold_transform x).isOk = true := h x (List.mem_cons_self x xs)
    obtain ⟨a, ha⟩ : ∃ a, manifold_transform x = .ok a := by
      cases hmx : manifold_transform x with
      | ok a => exact ⟨a, rfl⟩
      | error e => rw [hmx] at hx; simp [Except.isOk, Except.toBool] at hx
    rw [List.mapM_cons, ha, ih fun m hm => h m (List.mem_cons_of_mem x hm)]
    simp only [List.filterMap_cons, ha, Except.toOption]
    rfl

theorem mapM_manifold_error (ms : List ManifoldRaw)
    (h : ∃ m ∈ ms, (manifold_transform m).isOk = false) :
    ∃ e, ms.mapM manifold_transform = .error e := by
  induction ms with
  | nil => simp at h
  | cons x xs ih =>
    cases hmx : manifold_transform x with
    | error e => exact ⟨e, by rw [List.mapM_cons, hmx]; rfl⟩
    | ok a =>
      obtain ⟨m, hm, hfail⟩ := h
      rcases List.mem_cons.mp hm with rfl | hm'
      · rw [hmx] at hfail
        simp [Except.isOk, Except.toBool] at hfail
      · obtain ⟨e, he⟩ := ih ⟨m, hm', hfail⟩
        exact ⟨e, by rw [List.mapM_cons, hmx, he]; rfl⟩

/-- C6 counterexample: a Manifold batch holding one well-formed record
and one record whose field mapping raises (`groupSlugs == []`, so
`market_data.get('groupSlugs', [None])[0]` is an `IndexError`) collapses
to `[]` — the well-formed record is dropped with it, instead of being
returned. -/
theorem manifold_batch_collapse_counterexample :
    (manifold_transform manifoldGood).isOk = true ∧
    manifold_get_markets (.ok [manifoldGood, manifoldBad]) = [] := by
  exact ⟨rfl, rfl⟩

/-- C6 amended: missing fields are defaulted by `dict.get`, so a
Manifold record's field mapping fails exactly when its `groupSlugs`
field is the empty list; when no record fails the whole batch is mapped,
but when any record fails the exception aborts the entire loop and
`get_markets` returns `[]` — the caller-observable granularity is
all-or-nothing per batch, not per record. -/
theorem manifold_batch_granularity (ms : List ManifoldRaw) :
    ((∀ m ∈ ms, (manifold_transform m).isOk = true) →
      manifold_get_markets (.ok ms)
        = ms.filterMap fun m => (manifold_transform m).toOption) ∧
    ((∃ m ∈ ms, (manifold_transform m).isOk = false) →
      manifold_get_markets (.ok ms) = []) ∧
    (∀ m : ManifoldRaw,
      (manifold_transform m).isOk = false ↔ m.groupSlugs = some []) := by
  refine ⟨?_, ?_, ?_⟩
  · intro h
    rw [manifold_get_markets, mapM_manifold_ok ms h]
  · intro h
    obtain ⟨e, he⟩ := mapM_manifold_error ms h
    rw [manifold_get_markets, he]
  · intro m
    rw [manifold_transform]
    cases hg : m.groupSlugs with
    | none => simp [Except.isOk, Except.toBool, hg]
    | some l =>
      cases l with
      | nil => simp [Except.isOk, Except.toBool, hg]
      | cons a l' => simp [Except.isOk, Except.toBool, hg]

/-- Witness for the amended C6: a batch of one well-formed record maps
through, and a batch of one malformed record yields `[]`. -/
theorem manifold_batch_granularity_witness :
    manifold_get_markets (.ok [manifoldGood])
      = [manifoldGood].filterMap (fun m => (manifold_transform m).toOption) ∧
    manifold_get_markets (.ok [manifoldBad]) = [] :=
  ⟨(manifold_batch_granularity [manifoldGood]).1 (by intro m hm; rw [List.mem_singleton.mp hm]; rfl),
   (manifold_batch_granularity [manifoldBad]).2.1 ⟨manifoldBad, List.mem_singleton.mpr rfl, rfl⟩⟩

/-! ## Client registry and mock catalog (C7) -/

theorem initialize_client_isSome (platform : String) (config : APIConfig)
    (b : Bool) (hp : platform ≠ "news") :
    ∃ cl, initialize_client platform config b = some cl := by
  rw [initialize_client]
  rw [if_neg hp]
  split_ifs <;> exact ⟨_, rfl⟩

/-- C7 counterexample: `get_markets(category="")` is a category argument,
but the empty string is falsy so the filter is skipped: all five sample
records come back even though no record has category `""` — not "exactly
those sample records whose category equals the argument". -/
theorem mock_category_empty_counterexample :
    mock_get_markets "polymarket" (some "") 50 = mock_markets "polymarket" ∧
    (mock_markets "polymarket").filter (fun m => m.category = some "") = [] ∧
    mock_markets "polymarket" ≠ [] := by
  refine ⟨rfl, rfl, ?_⟩
  intro h
  exact absurd (congrArg List.length h) (by decide)

/-- C7 amended: a non-news venue with an empty credential always
resolves to the Mock client, a construction failure also falls back to
the Mock client, and a configured non-news venue is never absent from
the registry; `MockMarketClient.get_markets` with a NON-EMPTY category
argument returns exactly the sample records whose category equals the
argument (the empty string, being falsy, skips the filter). -/
theorem initialize_and_mock_spec :
    (∀ platform config, platform ≠ "news" → config.api_key = "" →
      ∀ b : Bool, initialize_client platform config b = some (.mock platform)) ∧
    (∀ platform config, platform ≠ "news" →
      initialize_client platform config true = some (.mock platform)) ∧
    (∀ api_configs construct_fails platform config,
      (platform, config) ∈ api_configs → platform ≠ "news" →
      ∃ c, (platform, c) ∈ initialize_clients api_configs construct_fails) ∧
    (∀ platform (c : String) (limit : Nat), c ≠ "" → 5 ≤ limit →
      mock_get_markets platform (some c) limit
        = (mock_markets platform).filter fun m => m.category = some c) := by
  refine ⟨?_, ?_, ?_, ?_⟩
  · intro platform config hp hk b
    rw [initialize_client, if_neg hp]
    simp [hk]
  · intro platform config hp
    by_cases hk : config.api_key = ""
    · rw [initialize_client, if_neg hp]
      simp [hk]
    · rw [initialize_client, if_neg hp]
      simp [hk]
  · intro api_configs construct_fails platform config hmem hp
    obtain ⟨cl, hcl⟩ :=
      initialize_client_isSome platform config (construct_fails platform) hp
    refine ⟨cl, List.mem_filterMap.mpr ⟨(platform, config), hmem, ?_⟩⟩
    rw [hcl]
    rfl
  · intro platform c limit hc hl
    rw [mock_get_markets]
    simp only [if_neg hc]
    refine List.take_of_length_le (le_trans (List.length_filter_le _ _) ?_)
    have h5 : (mock_markets platform).length = 5 := rfl
    rw [h5]
    exact hl

/-- Witness for the amended C7: an empty-credential Polymarket resolves
to Mock, and the mock catalog filtered by "crypto" is exactly its
crypto-category records. -/
theorem initialize_and_mock_spec_witness :
    initialize_client "polymarket" { api_key := "" } false
      = some (.mock "polymarket") ∧
    mock_get_markets "kalshi" (some "crypto") 50
      = (mock_markets "kalshi").filter fun m => m.category = some "crypto" :=
  ⟨initialize_and_mock_spec.1 "polymarket" { api_key := "" } (by decide) rfl false,
   initialize_and_mock_spec.2.2.2 "kalshi" "crypto" 50 (by decide) (by norm_num)⟩

/-! ## Order response shapes (C8) -/

/-- C8 counterexample: when the venue's 2xx response carries no
`order_id` field (for instance the `{}` that `_make_request` returns
after its budget is exhausted by 429s), Polymarket's `place_order`
produces `success=True` with `order_id=None` and `error_message=None` —
neither of the two claimed shapes. -/
theorem place_order_shape_counterexample :
    (polymarket_place_order { market_id := "m1", outcome := "Yes" }
        (.ok {})).success = true ∧
    (polymarket_place_order { market_id := "m1", outcome := "Yes" }
        (.ok {})).order_id = none ∧
    (polymarket_place_order { market_id := "m1", outcome := "Yes" }
        (.ok {})).error_message = none :=
  ⟨rfl, rfl, rfl⟩

/-- C8 amended: a failure response always has `success=false`, a
populated `error_message` and no `order_id`; a success response always
has `success=true`, no `error_message`, and an `order_id` equal to the
venue payload's id field — populated exactly when the venue supplied
one; the Mock client always returns `success=true` with a populated
`order_id`. -/
theorem place_order_shapes :
    (∀ o e, (polymarket_place_order o (.error e)).success = false ∧
      (polymarket_place_order o (.error e)).error_message = some e ∧
      (polymarket_place_order o (.error e)).order_id = none) ∧
    (∀ o e, (kalshi_place_order o (.error e)).success = false ∧
      (kalshi_place_order o (.error e)).error_message = some e ∧
      (kalshi_place_order o (.error e)).order_id = none) ∧
    (∀ o r, (polymarket_place_order o (.ok r)).success = true ∧
      (polymarket_place_order o (.ok r)).error_message = none ∧
      (polymarket_place_order o (.ok r)).order_id = r.order_id) ∧
    (∀ o r, (kalshi_place_order o (.ok r)).success = true ∧
      (kalshi_place_order o (.ok r)).error_message = none ∧
      (kalshi_place_order o (.ok r)).order_id = r.id) ∧
    (∀ o t, (mock_place_order o t).success = true ∧
      (mock_place_order o t).error_message = none ∧
      (mock_place_order o t).order_id = some ("mock_order_" ++ toString t)) :=
  ⟨fun _ _ => ⟨rfl, rfl, rfl⟩, fun _ _ => ⟨rfl, rfl, rfl⟩,
   fun _ _ => ⟨rfl, rfl, rfl⟩, fun _ _ => ⟨rfl, rfl, rfl⟩,
   fun _ _ => ⟨rfl, rfl, rfl⟩⟩

/-! ## Cross-venue matching (C4) -/

theorem best_scan_snd (q : String) (ms : List MarketData) :
    ∀ acc : Option MarketData × ℚ,
      (ms.foldl (best_scan_step q) acc).2
        = (ms.map fun m => questions_similar q m.question).foldl max acc.2 := by
  induction ms with
  | nil => intro acc; rfl
  | cons x xs ih =>
    intro acc
    rw [List.foldl_cons, List.map_cons, List.foldl_cons, ih]
    congr 1
    rw [best_scan_step]
    by_cases hlt : acc.2 < questions_similar q x.question
    · simp [hlt, max_eq_right hlt.le]
    · simp [hlt, max_eq_left (not_lt.mp hlt)]

theorem best_scan_cases (q : String) (ms : List MarketData) :
    ∀ acc : Option MarketData × ℚ,
      ms.foldl (best_scan_step q) acc = acc ∨
      ∃ m ∈ ms, ms.foldl (best_scan_step q) acc
        = (some m, questions_similar q m.question) := by
  induction ms with
  | nil => intro acc; exact Or.inl rfl
  | cons x xs ih =>
    intro acc
    rw [List.foldl_cons]
    rcases ih (best_scan_step q acc x) with h | ⟨m, hm, hfold⟩
    · rw [h, best_scan_step]
      by_cases hlt : acc.2 < questions_similar q x.question
      · exact Or.inr ⟨x, List.mem_cons_self x xs, by simp [hlt]⟩
      · exact Or.inl (by simp [hlt])
    · exact Or.inr ⟨m, List.mem_cons_of_mem x hm, hfold⟩

/-- C4: for each venue, `compare_market` keeps the market whose
word-set Jaccard similarity to the query is the highest seen, if and
only if that highest score is at least `0.7`; otherwise the venue maps
to `None`.  Each market-client venue's entry in the returned mapping is
computed this way over the up-to-100 markets it fetched. -/
theorem compare_market_venue_spec (q : String) (ms : List MarketData) :
    (∀ m, compare_market_venue q ms = some m →
      m ∈ ms ∧ questions_similar q m.question = max_similarity q ms ∧
      7/10 ≤ max_similarity q ms) ∧
    (compare_market_venue q ms = none ↔ max_similarity q ms < 7/10) ∧
    (∀ (clients : List (String × VenueFetch)) (p : String) (c : VenueFetch),
      (p, c) ∈ clients → is_market_client c = true →
      (p, compare_market_venue q (client_get_markets c none 100))
        ∈ compare_market q clients) := by
  have hsnd : (best_match q ms).2 = max_similarity q ms :=
    best_scan_snd q ms (none, 0)
  have hcases := best_scan_cases q ms (none, 0)
  refine ⟨?_, ⟨?_, ?_⟩, ?_⟩
  · intro m hm
    rw [compare_market_venue] at hm
    rcases hcases with hbm | ⟨m', hm', hbm⟩
    · rw [best_match] at hm
      rw [hbm] at hm
      simp at hm
    · rw [best_match] at hm
      rw [hbm] at hm
      simp only at hm
      split_ifs at hm with h7
      rw [Option.some_inj] at hm
      subst hm
      refine ⟨hm', ?_, ?_⟩
      · rw [← hsnd, best_match, hbm]
      · rw [← hsnd, best_match, hbm]
        exact h7
  · intro hnone
    rw [compare_market_venue] at hnone
    rcases hcases with hbm | ⟨m', hm', hbm⟩
    · rw [← hsnd, best_match, hbm]
      norm_num
    · rw [best_match] at hnone
      rw [hbm] at hnone
      simp only at hnone
      split_ifs at hnone with h7
      rw [← hsnd, best_match, hbm]
      exact not_le.mp h7
  · intro hlt
    rw [compare_market_venue]
    rcases hcases with hbm | ⟨m', hm', hbm⟩
    · rw [best_match, hbm]
    · rw [best_match, hbm]
      simp only
      rw [if_neg]
      rw [← hsnd, best_match, hbm] at hlt
      exact not_le.mpr hlt
  · intro clients p c hmem hmc
    rw [compare_market]
    exact List.mem_map.mpr ⟨(p, c), List.mem_filter.mpr ⟨hmem, hmc⟩, rfl⟩

/-- Witness for C4 at concrete inputs: a venue with an exact-match
question is kept with the maximal score of at least `0.7`; a venue with
no overlapping words maps to `None`; a concrete registry entry appears
in `compare_market`'s output. -/
theorem compare_market_venue_spec_witness :
    (mktB ∈ [mktB] ∧
      questions_similar "btc up" mktB.question = max_similarity "btc up" [mktB] ∧
      7/10 ≤ max_similarity "btc up" [mktB]) ∧
    compare_market_venue "" [mktA] = none ∧
    ("kalshi", compare_market_venue "btc up" (client_get_markets (.mock "kalshi") none 100))
      ∈ compare_market "btc up" [("kalshi", .mock "kalshi")] := by
  have hsimB : questions_similar "btc up" mktB.question = 1 := by
    have h1 : (wordSet "btc up" ∩ wordSet mktB.question).card = 2 := by decide
    have h2 : (wordSet "btc up" ∪ wordSet mktB.question).card = 2 := by decide
    have h3 : ¬(wordSet "btc up" = ∅ ∨ wordSet mktB.question = ∅) := by decide
    simp only [questions_similar, if_neg h3, h1, h2]
    norm_num
  have hbm : best_match "btc up" [mktB] = (some mktB, 1) := by
    rw [best_match, List.foldl_cons, List.foldl_nil, best_scan_step]
    simp only [hsimB]
    norm_num
  have hres : compare_market_venue "btc up" [mktB] = some mktB := by
    rw [compare_market_venue, hbm]
    norm_num
  have hsimA : questions_similar "" mktA.question = 0 := by
    simp only [questions_similar]
    rw [if_pos (Or.inl (by decide))]
  have hmaxA : max_similarity "" [mktA] = 0 := by
    rw [max_similarity, List.map_cons, List.map_nil, List.foldl_cons,
      List.foldl_nil, hsimA]
    exact max_self 0
  refine ⟨(compare_market_venue_spec "btc up" [mktB]).1 mktB hres, ?_, ?_⟩
  · refine ((compare_market_venue_spec "" [mktA]).2.1).mpr ?_
    rw [hmaxA]
    norm_num
  · exact (compare_market_venue_spec "btc up" []).2.2
      [("kalshi", .mock "kalshi")] "kalshi" (.mock "kalshi")
      (List.mem_singleton.mpr rfl) rfl

end ProbEx
